import Mathlib

/-!
Verification of the proposer-facing relay component (package `proposer` and
package `common` of the repository) against its natural-language specification.

The Go source is shallowly embedded: pure functions become Lean functions,
the datastore and the cryptographic verifier become explicit function-valued
parameters (the handlers only observe their results), byte strings become
`List Nat`, and each handler returns an explicit response value together with
the trace of datastore operations it performed.
-/

namespace BoostRelay

/-! ## Responses

Modelled from the spec: the `common.BaseAPI` response helpers (`RespondError`,
`RespondOK` with `common.NilResponse`, `RespondOKEmpty`) are not among the
provided sources.  The spec describes them as: a client error carrying a status
code and a message; a 200 success with an empty JSON body; a 200 success with
an empty body.  `handleGetHeader` writes status 204 directly.
-/

inductive ApiResponse where
  /-- Go `RespondError(w, status, message)` -/
  | respondError (status : Nat) (message : String)
  /-- Go `RespondOK(w, common.NilResponse)`: 200 with the empty JSON object body -/
  | respondOK
  /-- Go `RespondOKEmpty(w)`: 200 with an empty body -/
  | respondOKEmpty
  /-- Go `w.WriteHeader(http.StatusNoContent)` followed by encoding `NilResponse` -/
  | noContent204
deriving DecidableEq, Repr

def ApiResponse.status : ApiResponse → Nat
  | .respondError s _ => s
  | .respondOK => 200
  | .respondOKEmpty => 200
  | .noContent204 => 204

/-- Modelled from the spec: `common.ErrInvalidSlot` is defined outside the
provided sources; the spec names the error "invalid slot". -/
def errInvalidSlot : String := "invalid slot"

/-- Modelled from the spec: `common.ErrInvalidPubkey` is defined outside the
provided sources; the spec names the error "invalid pubkey". -/
def errInvalidPubkey : String := "invalid pubkey"

/-- Modelled from the spec: `common.ErrInvalidHash` is defined outside the
provided sources; the spec names the error "invalid hash". -/
def errInvalidHash : String := "invalid hash"

/-- Modelled from the spec: `common.ErrInvalidSignature` is defined outside the
provided sources; the spec names the error "invalid signature". -/
def errInvalidSignature : String := "invalid signature"

/-! ## Data model: validator registrations (go-boost-utils `types`) -/

/-- Go `types.RegisterValidatorRequestMessage`: fee recipient, gas limit,
timestamp and the proposer public key.  Bytes are embedded as `List Nat`. -/
structure RegisterValidatorRequestMessage where
  feeRecipient : List Nat
  gasLimit : Nat
  timestamp : Nat
  pubkey : List Nat
deriving DecidableEq, Repr

/-- Go `types.SignedValidatorRegistration`: a message plus a BLS signature. -/
structure SignedValidatorRegistration where
  message : RegisterValidatorRequestMessage
  signature : List Nat
deriving DecidableEq, Repr

/-- Hex digit character for a value below 16 (lowercase, as `hexutil`). -/
def hexDigitChar (n : Nat) : Char :=
  if n < 10 then Char.ofNat (48 + n) else Char.ofNat (87 + n)

/-- Two-character lowercase hex encoding of one byte. -/
def byteToHex (b : Nat) : String :=
  String.mk [hexDigitChar (b / 16 % 16), hexDigitChar (b % 16)]

/-- Go `types.PublicKey.String()` and `types.NewPubkeyHex`: the 0x-prefixed
lowercase hex rendering of the key bytes. -/
def pubkeyHexString (bs : List Nat) : String :=
  "0x" ++ String.join (bs.map byteToHex)

/-! ## The proposer API and its collaborators

The `datastore.ProposerDatastore` contract and `types.VerifySignature` are
external collaborators; the handlers only branch on their results, so they are
embedded as function-valued fields.  `VerifySignature` returns the Go
`(ok bool, err error)` pair.  `UpdateValidatorRegistration` returns the `error`
result (`none` means success). -/

structure ProposerAPI where
  isKnownValidator : String → Bool
  verifySignature : RegisterValidatorRequestMessage → List Nat → List Nat → Bool × Option String
  updateValidatorRegistration : SignedValidatorRegistration → Option String

/-- One observable datastore operation issued by a handler. -/
inductive DatastoreOp where
  | isKnownValidatorQuery (pubkeyHex : String)
  | updateValidatorRegistrationOp (reg : SignedValidatorRegistration)
deriving DecidableEq, Repr

def DatastoreOp.isUpsert : DatastoreOp → Bool
  | .updateValidatorRegistrationOp _ => true
  | _ => false

def countUpserts (ops : List DatastoreOp) : Nat :=
  (ops.filter DatastoreOp.isUpsert).length

/-- Outcome of processing one registration entry of the batch. -/
inductive RegistrationOutcome where
  | skippedPubkeyLength
  | skippedSignatureLength
  | skippedUnknownValidator
  | skippedSignatureInvalid
  | skippedUpdateError (err : String)
  | updated
deriving DecidableEq, Repr

/-- The body of the `for _, registration := range payload` loop of
`handleRegisterValidator`: length checks on pubkey and signature, the
known-validator query, signature verification, then the conditional upsert,
each failure skipping (`continue`) to the next entry.  Returns the outcome and
the datastore operations issued for this entry. -/
def registerValidatorStep (api : ProposerAPI) (registration : SignedValidatorRegistration) :
    RegistrationOutcome × List DatastoreOp :=
  if registration.message.pubkey.length ≠ 48 then
    (.skippedPubkeyLength, [])
  else if registration.signature.length ≠ 96 then
    (.skippedSignatureLength, [])
  else
    let pkHex := pubkeyHexString registration.message.pubkey
    if !(api.isKnownValidator pkHex) then
      (.skippedUnknownValidator, [.isKnownValidatorQuery pkHex])
    else
      let vres := api.verifySignature registration.message registration.message.pubkey
        registration.signature
      if vres.2.isSome || !vres.1 then
        (.skippedSignatureInvalid, [.isKnownValidatorQuery pkHex])
      else
        match api.updateValidatorRegistration registration with
        | some e =>
            (.skippedUpdateError e,
             [.isKnownValidatorQuery pkHex, .updateValidatorRegistrationOp registration])
        | none =>
            (.updated,
             [.isKnownValidatorQuery pkHex, .updateValidatorRegistrationOp registration])

/-- Handler `handleRegisterValidator`: decode the JSON array (the decode result is the
input, JSON decoding itself being a library collaborator); on decode failure
respond 400 with the decoder message; otherwise run every entry through
`registerValidatorStep` and respond OK.  Returns the response and the full
datastore-operation trace. -/
def handleRegisterValidator (api : ProposerAPI)
    (body : Except String (List SignedValidatorRegistration)) :
    ApiResponse × List DatastoreOp :=
  match body with
  | .error e => (.respondError 400 e, [])
  | .ok payload =>
      (.respondOK, (payload.map (fun r => (registerValidatorStep api r).2)).flatten)

/-- An entry passes every per-entry check: 48-byte pubkey, 96-byte signature,
known validator, and signature verification returning no error and `true`. -/
def passesAllChecks (api : ProposerAPI) (r : SignedValidatorRegistration) : Bool :=
  r.message.pubkey.length = 48 && r.signature.length = 96 &&
  api.isKnownValidator (pubkeyHexString r.message.pubkey) &&
  ((api.verifySignature r.message r.message.pubkey r.signature).2.isNone &&
   (api.verifySignature r.message r.message.pubkey r.signature).1)

/-! ## get-header -/

/-- Numeric value of a string of decimal digit characters, accumulated left to
right as `strconv.ParseUint` does. -/
def digitVal (s : String) : Nat :=
  s.data.foldl (fun acc c => acc * 10 + (c.toNat - 48)) 0

/-- Go `strconv.ParseUint(s, 10, 64)` (result only through success/failure and
the parsed value): succeeds exactly on nonempty all-digit strings whose value
fits an unsigned 64-bit integer; an out-of-range value is a range error. -/
def parseUint64 (s : String) : Option Nat :=
  if s.data.isEmpty then none
  else if s.data.all Char.isDigit then
    if digitVal s < 2 ^ 64 then some (digitVal s) else none
  else none

/-- The mux route pattern for the slot path segment, `\x7bslot:[0-9]+\x7d`:
a request reaches `handleGetHeader` only when the slot segment is a nonempty
string of decimal digits (of any width). -/
def slotRouteMatches (s : String) : Bool :=
  !s.data.isEmpty && s.data.all Char.isDigit

/-- Handler `handleGetHeader`, given the three decoded path variables: reject a slot
that `ParseUint` cannot parse, then a pubkey whose string length is not 98,
then a parent hash whose string length is not 66, in that order; when all
pass, answer 204 with the nil JSON body. -/
def handleGetHeader (slot parentHashHex pubkey : String) : ApiResponse :=
  if (parseUint64 slot).isNone then .respondError 400 errInvalidSlot
  else if pubkey.length ≠ 98 then .respondError 400 errInvalidPubkey
  else if parentHashHex.length ≠ 66 then .respondError 400 errInvalidHash
  else .noContent204

/-! ## get-payload -/

/-- Go `types.SignedBlindedBeaconBlock`: the handler only reads the `Signature`
field, so the block body is not represented. -/
structure SignedBlindedBeaconBlock where
  signature : List Nat
deriving DecidableEq, Repr

/-- Handler `handleGetPayload`: decode failure answers 400 with the decoder message;
a signature whose length is not 96 answers 400 with the invalid-signature
error; otherwise answer 200 with an empty body. -/
def handleGetPayload (body : Except String SignedBlindedBeaconBlock) : ApiResponse :=
  match body with
  | .error e => .respondError 400 e
  | .ok payload =>
      if payload.signature.length ≠ 96 then .respondError 400 errInvalidSignature
      else .respondOKEmpty

/-! ## Start, Stop and the background refresh goroutine -/

inductive LogLevel where
  | info
  | warn
  | error
deriving DecidableEq, Repr

/-- Function `Start`, synchronous part: call `RefreshKnownValidators` once (its result
is the input); a datastore error is returned and nothing else happens; on
success log (warning when the count is zero, info otherwise), launch the
background goroutine and return nil. -/
def Start (refreshResult : Except String Nat) : Option String × List (LogLevel × String) :=
  match refreshResult with
  | .error e => (some e, [])
  | .ok cnt =>
      if cnt = 0 then
        (none, [(.warn, "updated known validators, but have not received any")])
      else
        (none, [(.info, "updated known validators")])

/-- Go `context.Context` as observed by this code: only whether it has been
cancelled (whether its `Done` channel is closed). -/
structure GoContext where
  cancelled : Bool
deriving DecidableEq, Repr

/-- Go `ctx.Done()`: returns the done channel; a read that does not cancel. -/
def ctxDone (ctx : GoContext) : GoContext × Bool :=
  (ctx, ctx.cancelled)

/-- Function `Stop`: evaluates `api.ctx.Done()` (discarding the channel) and returns
nil.  Returns the resulting context state and the returned error. -/
def Stop (ctx : GoContext) : GoContext × Option String :=
  ((ctxDone ctx).1, none)

/-- The goroutine launched by `Start`: a single `select` on `ctx.Done()` and
one ticker channel, not wrapped in a loop.  If the context is cancelled the
done branch returns without refreshing; otherwise, if the ticker never fires
the goroutine blocks forever; otherwise the first tick triggers exactly one
`RefreshKnownValidators` call (its result only being logged, error or not)
after which the `select` — and with it the goroutine — ends.  The input lists
the refresh results the ticker ticks would deliver; the output counts the
tick-driven refresh calls performed. -/
def backgroundRefreshRuns (ctx : GoContext) (tickRefreshResults : List (Except String Nat)) : Nat :=
  if ctx.cancelled then 0
  else
    match tickRefreshResults with
    | [] => 0
    | _ :: _ => 1

/-! ## common.NewBuilderEntry -/

/-- The fields of Go `net/url.URL` that `NewBuilderEntry` reads. -/
structure GoURL where
  scheme : String
  username : String
  host : String
deriving DecidableEq, Repr

/-- Go `common.BuilderEntry`. -/
structure BuilderEntry where
  address : String
  pubkey : List Nat
  url : GoURL
deriving DecidableEq, Repr

/-- Result of `NewBuilderEntry`: a constructed entry, a returned error, or a
Go runtime panic from dereferencing a nil pointer. -/
inductive BuilderEntryResult where
  | ok (entry : BuilderEntry)
  | err (msg : String)
  | nilDereferencePanic
deriving DecidableEq, Repr

def BuilderEntryResult.isOk : BuilderEntryResult → Bool
  | .ok _ => true
  | _ => false

/-- Hex value of one character, when it is a hex digit. -/
def hexCharVal (c : Char) : Option Nat :=
  if c.isDigit then some (c.toNat - 48)
  else if 97 ≤ c.toNat && c.toNat ≤ 102 then some (c.toNat - 87)
  else if 65 ≤ c.toNat && c.toNat ≤ 70 then some (c.toNat - 55)
  else none

/-- Decode pairs of hex digit characters into bytes. -/
def hexPairsToBytes : List Char → Option (List Nat)
  | [] => some []
  | [_] => none
  | c1 :: c2 :: rest =>
      match hexCharVal c1, hexCharVal c2, hexPairsToBytes rest with
      | some h, some l, some bs => some ((h * 16 + l) :: bs)
      | _, _, _ => none

/-- Go `hexutil.Bytes.UnmarshalText` (external library): requires a `0x` prefix
and an even number of hex digits; decodes to raw bytes. -/
def hexutilDecodeBytes (s : String) : Except String (List Nat) :=
  match s.data with
  | '0' :: 'x' :: rest =>
      match hexPairsToBytes rest with
      | some bs => .ok bs
      | none => .error "invalid hex string"
  | _ => .error "hex string without 0x prefix"

/-- Go `strings.HasPrefix(builderURL, "http")`. -/
def hasHttpScheme (s : String) : Bool :=
  match s.data with
  | 'h' :: 't' :: 't' :: 'p' :: _ => true
  | _ => false

/-- Function `common.NewBuilderEntry`, parametric in the `net/url.Parse` collaborator.
The Go function declares `entry *BuilderEntry` as a named return value, which
holds nil until assigned; the composite literal that builds the entry computes
`Address` as `entry.URL.Scheme + "://" + entry.URL.Host`, reading the field
`URL` through `entry` while `entry` is still nil, so every execution that gets
past URL parsing dereferences a nil pointer. -/
def NewBuilderEntry (urlParse : String → Except String GoURL) (builderURL : String) :
    BuilderEntryResult :=
  let entry : Option BuilderEntry := none
  let builderURL1 :=
    if hasHttpScheme builderURL then builderURL else "http://" ++ builderURL
  match urlParse builderURL1 with
  | .error e => .err e
  | .ok u =>
      match entry with
      | none => .nilDereferencePanic
      | some prev =>
          -- unreachable: `entry` is nil at this point in every execution;
          -- kept to mirror the remainder of the Go function body
          let entry1 : BuilderEntry :=
            { address := prev.url.scheme ++ "://" ++ prev.url.host
              pubkey := []
              url := u }
          match hexutilDecodeBytes u.username with
          | .error e => .err e
          | .ok pk => .ok { entry1 with pubkey := pk }

/-- Split a character list at the first occurrence of `://`. -/
def breakOnSchemeSep : List Char → Option (List Char × List Char)
  | [] => none
  | ':' :: '/' :: '/' :: rest => some ([], rest)
  | c :: rest =>
      match breakOnSchemeSep rest with
      | some (pre, post) => some (c :: pre, post)
      | none => none

/-- Split a character list at the first `@`. -/
def breakOnUserSep : List Char → Option (List Char × List Char)
  | [] => none
  | '@' :: rest => some ([], rest)
  | c :: rest =>
      match breakOnUserSep rest with
      | some (pre, post) => some (c :: pre, post)
      | none => none

/-- Go `net/url.Parse` restricted to the authority-form inputs this code
feeds it (every input starts with a scheme after the `http://` prefixing):
`scheme://[user@]host`, an error on a space in the authority, success
otherwise.  A concrete instance of the `urlParse` collaborator, standing in
for the documented behaviour of the library on these inputs. -/
def goURLParse (s : String) : Except String GoURL :=
  match breakOnSchemeSep s.data with
  | none => .ok ⟨"", "", s⟩
  | some (sch, rest) =>
      if rest.any (fun c => c = ' ') then
        .error ("parse " ++ s ++ ": invalid character in host name")
      else
        match breakOnUserSep rest with
        | none => .ok ⟨String.mk sch, "", String.mk rest⟩
        | some (user, host) => .ok ⟨String.mk sch, String.mk user, String.mk host⟩

/-! ## common.NewEthNetworkDetails -/

structure EthNetworkDetails where
  name : String
  genesisForkVersionHex : String
  genesisValidatorsRootHex : String
  bellatrixForkVersionHex : String
deriving DecidableEq, Repr

def EthNetworkKiln : String := "kiln"
def EthNetworkRopsten : String := "ropsten"
def EthNetworkSepolia : String := "sepolia"
def EthNetworkGoerliShadowFork5 : String := "goerli-shadow-fork-5"

def GenesisValidatorsRootGoerliShadowFork5 : String :=
  "0xe45f26d5a29b0ed5a9f62f248b842a30dd7b7fba0b5b104eab271efc04e0cf66"
def GenesisForkVersionGoerliShadowFork5 : String := "0x13001034"
def BellatrixForkVersionGoerliShadowFork5 : String := "0x22001034"

/-- The network constants the source imports from the external
`go-boost-utils` `types` package (kiln, ropsten and sepolia fork versions and
validators roots); external static data, embedded parametrically. -/
structure BoostTypesConstants where
  genesisForkVersionKiln : String
  genesisValidatorsRootKiln : String
  bellatrixForkVersionKiln : String
  genesisForkVersionRopsten : String
  genesisValidatorsRootRopsten : String
  bellatrixForkVersionRopsten : String
  genesisForkVersionSepolia : String
  genesisValidatorsRootSepolia : String
  bellatrixForkVersionSepolia : String
deriving DecidableEq, Repr

/-- The supported network names, the cases of the `switch` in
`NewEthNetworkDetails`. -/
def supportedNetworks : List String :=
  [EthNetworkKiln, EthNetworkRopsten, EthNetworkSepolia, EthNetworkGoerliShadowFork5]

/-- Function `common.NewEthNetworkDetails`: fill the details from the constants table
for the four supported names; any other name is an unknown-network error. -/
def NewEthNetworkDetails (c : BoostTypesConstants) (networkName : String) :
    Except String EthNetworkDetails :=
  if networkName = EthNetworkKiln then
    .ok ⟨networkName, c.genesisForkVersionKiln, c.genesisValidatorsRootKiln,
      c.bellatrixForkVersionKiln⟩
  else if networkName = EthNetworkRopsten then
    .ok ⟨networkName, c.genesisForkVersionRopsten, c.genesisValidatorsRootRopsten,
      c.bellatrixForkVersionRopsten⟩
  else if networkName = EthNetworkSepolia then
    .ok ⟨networkName, c.genesisForkVersionSepolia, c.genesisValidatorsRootSepolia,
      c.bellatrixForkVersionSepolia⟩
  else if networkName = EthNetworkGoerliShadowFork5 then
    .ok ⟨networkName, GenesisForkVersionGoerliShadowFork5,
      GenesisValidatorsRootGoerliShadowFork5, BellatrixForkVersionGoerliShadowFork5⟩
  else
    .error ("unknown network: " ++ networkName)

/-! ## Helper lemmas -/

theorem countUpserts_append (a b : List DatastoreOp) :
    countUpserts (a ++ b) = countUpserts a + countUpserts b := by
  simp [countUpserts, List.filter_append]

theorem registerValidatorStep_upserts (api : ProposerAPI) (r : SignedValidatorRegistration) :
    countUpserts (registerValidatorStep api r).2 = if passesAllChecks api r then 1 else 0 := by
  unfold registerValidatorStep passesAllChecks
  by_cases h1 : r.message.pubkey.length = 48 <;>
  by_cases h2 : r.signature.length = 96 <;>
  by_cases h3 : api.isKnownValidator (pubkeyHexString r.message.pubkey) <;>
  rcases h4 : (api.verifySignature r.message r.message.pubkey r.signature).2 with _ | e <;>
  rcases h5 : (api.verifySignature r.message r.message.pubkey r.signature).1 with _ | _ <;>
  cases h6 : api.updateValidatorRegistration r <;>
  simp_all [countUpserts, DatastoreOp.isUpsert]

/-! ## Claim theorems -/

/-- Claim C1: a register-validator request whose body decodes as a JSON array
always answers 200 with the empty JSON body, no matter how many entries are
rejected; the number of datastore upserts attempted equals the number of
entries passing all four per-entry checks; and processing is per-entry local,
so a failing entry never affects the operations of later entries. -/
theorem C1_register_batch_success (api : ProposerAPI)
    (payload : List SignedValidatorRegistration) :
    (handleRegisterValidator api (.ok payload)).1 = .respondOK ∧
    (handleRegisterValidator api (.ok payload)).1.status = 200 ∧
    countUpserts (handleRegisterValidator api (.ok payload)).2 =
      (payload.filter (passesAllChecks api)).length ∧
    ∀ xs ys : List SignedValidatorRegistration,
      (handleRegisterValidator api (.ok (xs ++ ys))).2 =
        (handleRegisterValidator api (.ok xs)).2 ++ (handleRegisterValidator api (.ok ys)).2 := by
  refine ⟨rfl, rfl, ?_, ?_⟩
  · induction payload with
    | nil => rfl
    | cons r rs ih =>
        simp only [handleRegisterValidator, List.map_cons, List.flatten_cons] at *
        rw [countUpserts_append, registerValidatorStep_upserts, List.filter_cons]
        by_cases h : passesAllChecks api r
        · simp [h, ih]
          omega
        · simp [h, ih]
  · intro xs ys
    simp [handleRegisterValidator, List.map_append]

/-- Claim C2: per-entry checks run in the order pubkey length, signature
length, known-validator membership, signature verification, conditional
upsert, short-circuiting on the first failure; a structurally invalid entry
issues no datastore operation at all. -/
theorem C2_step_check_order (api : ProposerAPI) (r : SignedValidatorRegistration) :
    (r.message.pubkey.length ≠ 48 →
      registerValidatorStep api r = (.skippedPubkeyLength, [])) ∧
    (r.message.pubkey.length = 48 → r.signature.length ≠ 96 →
      registerValidatorStep api r = (.skippedSignatureLength, [])) ∧
    (r.message.pubkey.length ≠ 48 ∨ r.signature.length ≠ 96 →
      (registerValidatorStep api r).2 = []) ∧
    (r.message.pubkey.length = 48 → r.signature.length = 96 →
      api.isKnownValidator (pubkeyHexString r.message.pubkey) = false →
      registerValidatorStep api r =
        (.skippedUnknownValidator, [.isKnownValidatorQuery (pubkeyHexString r.message.pubkey)])) ∧
    (r.message.pubkey.length = 48 → r.signature.length = 96 →
      api.isKnownValidator (pubkeyHexString r.message.pubkey) = true →
      ((api.verifySignature r.message r.message.pubkey r.signature).2.isSome = true ∨
        (api.verifySignature r.message r.message.pubkey r.signature).1 = false) →
      registerValidatorStep api r =
        (.skippedSignatureInvalid, [.isKnownValidatorQuery (pubkeyHexString r.message.pubkey)])) ∧
    (r.message.pubkey.length = 48 → r.signature.length = 96 →
      api.isKnownValidator (pubkeyHexString r.message.pubkey) = true →
      (api.verifySignature r.message r.message.pubkey r.signature).2 = none →
      (api.verifySignature r.message r.message.pubkey r.signature).1 = true →
      (registerValidatorStep api r).2 =
        [.isKnownValidatorQuery (pubkeyHexString r.message.pubkey),
         .updateValidatorRegistrationOp r] ∧
      (api.updateValidatorRegistration r = none →
        (registerValidatorStep api r).1 = .updated)) := by
  refine ⟨?_, ?_, ?_, ?_, ?_, ?_⟩
  · intro h1
    simp [registerValidatorStep, h1]
  · intro h1 h2
    simp [registerValidatorStep, h1, h2]
  · rintro (h | h)
    · simp [registerValidatorStep, h]
    · by_cases h1 : r.message.pubkey.length = 48 <;> simp [registerValidatorStep, h1, h]
  · intro h1 h2 h3
    simp [registerValidatorStep, h1, h2, h3]
  · intro h1 h2 h3 h4
    rcases h4 with h4 | h4 <;>
      simp [registerValidatorStep, h1, h2, h3, h4]
  · intro h1 h2 h3 h4 h5
    constructor
    · cases h6 : api.updateValidatorRegistration r <;>
        simp [registerValidatorStep, h1, h2, h3, h4, h5, h6]
    · intro h6
      simp [registerValidatorStep, h1, h2, h3, h4, h5, h6]

/-- A verification environment with a fixed concrete behaviour, for witnesses. -/
def apiAllValid : ProposerAPI where
  isKnownValidator := fun _ => true
  verifySignature := fun _ _ _ => (true, none)
  updateValidatorRegistration := fun _ => none

/-- A registration whose public key has the wrong length (1 byte). -/
def regShortPubkey : SignedValidatorRegistration where
  message := { feeRecipient := [], gasLimit := 0, timestamp := 0, pubkey := [0] }
  signature := List.replicate 96 0

theorem C2_step_check_order_witness :
    registerValidatorStep apiAllValid regShortPubkey = (.skippedPubkeyLength, []) :=
  (C2_step_check_order apiAllValid regShortPubkey).1 (by decide)

/-- Claim C3: get-header validates the slot format, then the pubkey string
length (98), then the parent-hash string length (66), the first failing check
determining the 400 error; with all three valid the answer is 204 with the
nil JSON body, never a payload. -/
theorem C3_getHeader_validation_order (slot parentHashHex pubkey : String) :
    (parseUint64 slot = none →
      handleGetHeader slot parentHashHex pubkey = .respondError 400 errInvalidSlot) ∧
    ((parseUint64 slot).isSome = true → pubkey.length ≠ 98 →
      handleGetHeader slot parentHashHex pubkey = .respondError 400 errInvalidPubkey) ∧
    ((parseUint64 slot).isSome = true → pubkey.length = 98 → parentHashHex.length ≠ 66 →
      handleGetHeader slot parentHashHex pubkey = .respondError 400 errInvalidHash) ∧
    ((parseUint64 slot).isSome = true → pubkey.length = 98 → parentHashHex.length = 66 →
      handleGetHeader slot parentHashHex pubkey = .noContent204 ∧
      (handleGetHeader slot parentHashHex pubkey).status = 204) := by
  refine ⟨?_, ?_, ?_, ?_⟩
  · intro h
    simp [handleGetHeader, h]
  · intro h hp
    have hn : parseUint64 slot ≠ none := Option.isSome_iff_ne_none.mp h
    simp [handleGetHeader, Option.isNone_iff_eq_none, hn, hp]
  · intro h hp hh
    have hn : parseUint64 slot ≠ none := Option.isSome_iff_ne_none.mp h
    simp [handleGetHeader, Option.isNone_iff_eq_none, hn, hp, hh]
  · intro h hp hh
    have hn : parseUint64 slot ≠ none := Option.isSome_iff_ne_none.mp h
    simp [handleGetHeader, Option.isNone_iff_eq_none, hn, hp, hh, ApiResponse.status]

/-- A 98-character pubkey path segment (the 0x prefix plus 96 hex digits). -/
def pk98 : String := String.mk ('0' :: 'x' :: List.replicate 96 '0')

/-- A 90-character pubkey path segment. -/
def pk90 : String := String.mk ('0' :: 'x' :: List.replicate 88 '0')

/-- A 66-character parent-hash path segment. -/
def hash66 : String := String.mk ('0' :: 'x' :: List.replicate 64 '0')

theorem C3_getHeader_validation_order_witness :
    handleGetHeader "abc" hash66 pk98 = .respondError 400 errInvalidSlot ∧
    handleGetHeader "123" hash66 pk90 = .respondError 400 errInvalidPubkey ∧
    handleGetHeader "123" hash66 pk98 = .noContent204 :=
  ⟨(C3_getHeader_validation_order "abc" hash66 pk98).1 (by decide),
   (C3_getHeader_validation_order "123" hash66 pk90).2.1 (by decide) (by decide),
   ((C3_getHeader_validation_order "123" hash66 pk98).2.2.2 (by decide) (by decide)
     (by decide)).1⟩

/-- Claim C6: get-payload answers 400 with the decoder message when the body
fails to decode, 400 with the invalid-signature error when the signature is
not exactly 96 bytes, and a 200 success with an empty body otherwise. -/
theorem C6_getPayload_cases (e : String) (p : SignedBlindedBeaconBlock) :
    handleGetPayload (.error e) = .respondError 400 e ∧
    (handleGetPayload (.error e)).status = 400 ∧
    (p.signature.length ≠ 96 →
      handleGetPayload (.ok p) = .respondError 400 errInvalidSignature) ∧
    (p.signature.length = 96 →
      handleGetPayload (.ok p) = .respondOKEmpty ∧
      (handleGetPayload (.ok p)).status = 200) := by
  refine ⟨rfl, rfl, ?_, ?_⟩
  · intro h
    simp [handleGetPayload, h]
  · intro h
    simp [handleGetPayload, h, ApiResponse.status]

/-- A signed blinded block whose signature is 95 bytes long. -/
def blindedBlock95 : SignedBlindedBeaconBlock where
  signature := List.replicate 95 0

theorem C6_getPayload_cases_witness :
    handleGetPayload (.ok blindedBlock95) = .respondError 400 errInvalidSignature :=
  (C6_getPayload_cases "decode failure" blindedBlock95).2.2.1 (by decide)

/-- Claim C7: Start returns an error exactly when the initial synchronous
refresh does; a successful refresh with zero entries still succeeds, logging
only a warning. -/
theorem C7_Start_error_iff_refresh_error (e : String) (cnt : Nat) :
    (Start (.error e)).1 = some e ∧
    (Start (.ok cnt)).1 = none ∧
    (cnt = 0 → Start (.ok cnt) =
      (none, [(.warn, "updated known validators, but have not received any")])) := by
  refine ⟨rfl, ?_, ?_⟩
  · by_cases h : cnt = 0 <;> simp [Start, h]
  · intro h
    simp [Start, h]

theorem C7_Start_error_iff_refresh_error_witness :
    (Start (.error "datastore down")).1 = some "datastore down" ∧
    Start (.ok 0) =
      (none, [(.warn, "updated known validators, but have not received any")]) :=
  ⟨(C7_Start_error_iff_refresh_error "datastore down" 0).1,
   (C7_Start_error_iff_refresh_error "datastore down" 0).2.2 rfl⟩

/-- Claim C4 (code evaluation): the background task launched by Start is a
single select, not a loop, so in every trace it performs at most one
tick-driven refresh — even when the ticker would fire again (successfully or
not), no further refresh ever runs, contradicting the claimed
one-refresh-per-epoch steady state. -/
theorem C4_background_refresh_at_most_once (ctx : GoContext)
    (results : List (Except String Nat)) :
    backgroundRefreshRuns ctx results ≤ 1 ∧
    backgroundRefreshRuns ⟨false⟩ [Except.ok 5, Except.ok 7] = 1 ∧
    backgroundRefreshRuns ⟨false⟩ [Except.error "refresh failed", Except.ok 7] = 1 := by
  refine ⟨?_, rfl, rfl⟩
  rcases ctx with ⟨c⟩
  cases c <;> cases results <;> simp [backgroundRefreshRuns]

/-- Claim C5 (code evaluation): NewBuilderEntry can never return a constructed
entry: on every input where URL parsing succeeds, the composite literal reads
the URL field through the still-nil named return value and panics, and on
every other input it returns the parse error. -/
theorem C5_NewBuilderEntry_never_ok :
    NewBuilderEntry goURLParse "localhost:8080" = .nilDereferencePanic ∧
    ∀ (urlParse : String → Except String GoURL) (s : String),
      (NewBuilderEntry urlParse s).isOk = false := by
  constructor
  · decide
  · intro urlParse s
    unfold NewBuilderEntry
    rcases h : urlParse (if hasHttpScheme s then s else "http://" ++ s) with e | u <;>
      simp [h, BuilderEntryResult.isOk]

/-- Claim C10: Stop only reads the done channel of the owning context; it
returns nil, leaves the context exactly as it was, and therefore leaves the
background refresh behaviour unchanged. -/
theorem C10_Stop_returns_nil_and_cancels_nothing (ctx : GoContext)
    (results : List (Except String Nat)) :
    Stop ctx = (ctx, none) ∧
    backgroundRefreshRuns (Stop ctx).1 results = backgroundRefreshRuns ctx results :=
  ⟨rfl, rfl⟩

/-- Claim C8, counterexample: the all-digit slot string for 2^64 matches the
route pattern, yet the slot check fails (ParseUint range error) and get-header
answers the invalid-slot error, so not every decimal digit string passes the
slot-format check. -/
theorem C8_counterexample :
    slotRouteMatches "18446744073709551616" = true ∧
    parseUint64 "18446744073709551616" = none ∧
    handleGetHeader "18446744073709551616" hash66 pk98 =
      .respondError 400 errInvalidSlot :=
  ⟨by decide, by decide, by decide⟩

/-- Claim C8 as amended: a digit-string slot passes the slot-format check iff
its value fits in an unsigned 64-bit integer; in range, validation proceeds to
the pubkey check, and out of range get-header answers the invalid-slot
error. -/
theorem C8_slot_check_bounded (s parentHashHex pubkey : String)
    (h1 : s.data.isEmpty = false) (h2 : s.data.all Char.isDigit = true) :
    (digitVal s < 2 ^ 64 →
      parseUint64 s = some (digitVal s) ∧
      (pubkey.length ≠ 98 →
        handleGetHeader s parentHashHex pubkey = .respondError 400 errInvalidPubkey)) ∧
    (2 ^ 64 ≤ digitVal s →
      parseUint64 s = none ∧
      handleGetHeader s parentHashHex pubkey = .respondError 400 errInvalidSlot) := by
  constructor
  · intro hlt
    have h64 : (2 : Nat) ^ 64 = 18446744073709551616 := by norm_num
    rw [h64] at hlt
    have hps : parseUint64 s = some (digitVal s) := by
      simp [parseUint64, h1, h2, h64, hlt]
    refine ⟨hps, ?_⟩
    intro hp
    simp [handleGetHeader, hps, hp]
  · intro hge
    have h64 : (2 : Nat) ^ 64 = 18446744073709551616 := by norm_num
    rw [h64] at hge
    have hps : parseUint64 s = none := by
      simp [parseUint64, h1, h2, h64]
      omega
    exact ⟨hps, by simp [handleGetHeader, hps]⟩

theorem C8_slot_check_bounded_witness :
    handleGetHeader "18446744073709551615" hash66 pk90 =
      .respondError 400 errInvalidPubkey ∧
    handleGetHeader "18446744073709551617" hash66 pk98 =
      .respondError 400 errInvalidSlot :=
  ⟨((C8_slot_check_bounded "18446744073709551615" hash66 pk90 (by decide) (by decide)).1
      (by decide)).2 (by decide),
   ((C8_slot_check_bounded "18446744073709551617" hash66 pk98 (by decide) (by decide)).2
      (by decide)).2⟩

/-- An instantiation of the external constants table with the go-boost-utils
values; the network theorem is parametric in these, needing only that they are
nonempty. -/
def boostConstantsInstance : BoostTypesConstants where
  genesisForkVersionKiln := "0x70000069"
  genesisValidatorsRootKiln := "0x99b09fcd43e5905236c370f184056bec6e6638cfc31a323b304fc4aa789cb4ad"
  bellatrixForkVersionKiln := "0x70000071"
  genesisForkVersionRopsten := "0x80000069"
  genesisValidatorsRootRopsten := "0x44f1e56283ca88b35c789f7f449e52339bc1fefe3a45913a43a6d16edcd33cf1"
  bellatrixForkVersionRopsten := "0x80000071"
  genesisForkVersionSepolia := "0x90000069"
  genesisValidatorsRootSepolia := "0xd8ea171f3c94aea21ebc42a1ed61052acf3f9209c00e4efbaaddac09ed9b8078"
  bellatrixForkVersionSepolia := "0x90000071"

/-- Claim C9: network resolution is a deterministic pure function; every name
outside the four supported ones fails with the unknown-network error, and a
successful resolution carries the requested name and (given a table of
nonempty constants) no empty field. -/
theorem C9_network_resolution (c : BoostTypesConstants) (n : String)
    (hc : c.genesisForkVersionKiln ≠ "" ∧ c.genesisValidatorsRootKiln ≠ "" ∧
      c.bellatrixForkVersionKiln ≠ "" ∧ c.genesisForkVersionRopsten ≠ "" ∧
      c.genesisValidatorsRootRopsten ≠ "" ∧ c.bellatrixForkVersionRopsten ≠ "" ∧
      c.genesisForkVersionSepolia ≠ "" ∧ c.genesisValidatorsRootSepolia ≠ "" ∧
      c.bellatrixForkVersionSepolia ≠ "") :
    NewEthNetworkDetails c n = NewEthNetworkDetails c n ∧
    (n ∉ supportedNetworks →
      NewEthNetworkDetails c n = .error ("unknown network: " ++ n)) ∧
    ∀ d, NewEthNetworkDetails c n = .ok d →
      d.name = n ∧ d.genesisForkVersionHex ≠ "" ∧ d.genesisValidatorsRootHex ≠ "" ∧
        d.bellatrixForkVersionHex ≠ "" := by
  obtain ⟨hc1, hc2, hc3, hc4, hc5, hc6, hc7, hc8, hc9⟩ := hc
  refine ⟨rfl, ?_, ?_⟩
  · intro hn
    simp only [supportedNetworks, List.mem_cons, List.not_mem_nil, or_false, not_or] at hn
    obtain ⟨hk, hr, hs, hg⟩ := hn
    simp [NewEthNetworkDetails, hk, hr, hs, hg]
  · intro d hd
    unfold NewEthNetworkDetails at hd
    split_ifs at hd with hk hr hs hg <;>
      cases hd <;>
      simp_all [GenesisForkVersionGoerliShadowFork5,
        GenesisValidatorsRootGoerliShadowFork5, BellatrixForkVersionGoerliShadowFork5]

theorem C9_network_resolution_witness :
    NewEthNetworkDetails boostConstantsInstance "mainnet" =
      .error ("unknown network: " ++ "mainnet") ∧
    (NewEthNetworkDetails boostConstantsInstance "kiln" =
      NewEthNetworkDetails boostConstantsInstance "kiln") :=
  ⟨(C9_network_resolution boostConstantsInstance "mainnet" (by decide)).2.1 (by decide),
   (C9_network_resolution boostConstantsInstance "kiln" (by decide)).1⟩

end BoostRelay
